import Mathlib

/-!
Verification of the webrtc-grabber-rs SFU core against its specification.

The definitions below are a shallow embedding of the Rust sources:
  - `src/server/src/storage.rs`      (peer registry)
  - `src/local/src/broadcaster.rs`   (per-track fan-out, PLI serializer, consumers)
  - `src/local/src/sfu.rs`           (SFU facade: admission, sessions, metrics)
  - `src/server/src/handlers/*.rs`   (grabber / player signaling, HTTP api)
  - `src/server/src/websocket.rs`    (WebSocket session wrapper)

Machine integers are modelled as `Nat`; wall-clock instants as milliseconds
since an arbitrary origin; fallible external calls (the webrtc library) are
modelled by an oracle telling which call succeeds.
-/

namespace WG

/-- Codec capability as carried by `RTCRtpCodecCapability` (the fields the
SFU reads: mime type, clock rate, channels, fmtp line). -/
structure CodecCapability where
  mime_type : String
  clock_rate : Nat
  channels : Nat
  sdp_fmtp_line : String
deriving DecidableEq, Repr

/-- Error kinds of `sfu_local::error::SfuError` (file `src/local/src/error.rs`);
only the payloads the claims inspect are kept as strings. -/
inductive SfuError where
  | PublisherNotFound (id : String)
  | SubscriberNotFound (id : String)
  | TrackNotFound (id : String)
  | PeerConnectionCreation (msg : String)
  | SetRemoteDescription (msg : String)
  | CreateAnswer (msg : String)
  | SetLocalDescription (msg : String)
  | AddIceCandidate (msg : String)
  | AddTrack (msg : String)
  | BroadcastChannelFull
  | BroadcastChannelClosed
  | Configuration (msg : String)
  | Internal (msg : String)
deriving DecidableEq, Repr

/-- Error kinds of `SignallingError` (file `src/server/src/error.rs`). -/
inductive SignallingError where
  | WebSocket (msg : String)
  | AuthenticationFailed (msg : String)
  | Timeout (msg : String)
  | InvalidMessageFormat (msg : String)
  | SfuError (e : SfuError)
  | PeerNotFound (msg : String)
  | SessionError (msg : String)
  | Serialization (msg : String)
deriving DecidableEq, Repr

/-! ### Association-list maps

`DashMap` is modelled as an association list with unique keys:
`insert` overwrites the binding of an existing key in place, `lookup`
returns the first (hence only) binding, `remove` deletes it. -/

/-- Lookup in an association list (model of `DashMap::get`). -/
def alookup (k : String) : List (String × α) → Option α
  | [] => none
  | (a, b) :: rest => if a = k then some b else alookup k rest

/-- Insert-or-overwrite (model of `DashMap::insert`). -/
def ainsert (k : String) (v : α) : List (String × α) → List (String × α)
  | [] => [(k, v)]
  | (a, b) :: rest => if a = k then (k, v) :: rest else (a, b) :: ainsert k v rest

/-- Remove a key (model of `DashMap::remove`); returns the removed value
and the remaining map. -/
def aremove (k : String) : List (String × α) → Option α × List (String × α)
  | [] => (none, [])
  | (a, b) :: rest =>
    if a = k then (some b, rest)
    else
      let r := aremove k rest
      (r.1, (a, b) :: r.2)

/-! ### Peer registry (`src/server/src/storage.rs`) -/

/-- Mirror of `protocol::PeerStatus`. -/
structure PeerStatus where
  name : String
  socket_id : String
  online : Bool
  connections : Nat
  stream_types : List String
  last_ping : Int
deriving DecidableEq, Repr

/-- Mirror of `Storage`: a map from peer name to status. -/
structure Storage where
  peers : List (String × PeerStatus)
deriving DecidableEq, Repr

/-- Mirror of `Storage::add_peer`: inserts (overwriting any prior binding
of the same name) a fresh `PeerStatus` for `name` with the given socket id;
`now` stands for `chrono::Utc::now().timestamp()`. -/
def Storage.add_peer (s : Storage) (name socket_id : String) (now : Int) : Storage :=
  ⟨ainsert name
    { name := name, socket_id := socket_id, online := true,
      connections := 0, stream_types := [], last_ping := now } s.peers⟩

/-- Mirror of `Storage::get_peer_by_name`. -/
def Storage.get_peer_by_name (s : Storage) (name : String) : Option PeerStatus :=
  alookup name s.peers

/-- Mirror of the body of `Storage::update_ping`: scan the entries in order
and update the first whose `socket_id` matches, then stop (the Rust loop
breaks after the first hit). -/
def update_ping_list (socket_id : String) (connections : Nat) (streams : List String)
    (now : Int) : List (String × PeerStatus) → List (String × PeerStatus)
  | [] => []
  | (k, p) :: rest =>
    if p.socket_id = socket_id then
      (k, { p with connections := connections, stream_types := streams,
                   last_ping := now, online := true }) :: rest
    else
      (k, p) :: update_ping_list socket_id connections streams now rest

/-- Mirror of `Storage::update_ping`. -/
def Storage.update_ping (s : Storage) (socket_id : String) (connections : Nat)
    (streams : List String) (now : Int) : Storage :=
  ⟨update_ping_list socket_id connections streams now s.peers⟩

/-- Mirror of `Storage::remove_peer_by_socket_id`
(`retain |_, v| v.socket_id != socket_id`). -/
def Storage.remove_peer_by_socket_id (s : Storage) (socket_id : String) : Storage :=
  ⟨s.peers.filter (fun kv => kv.2.socket_id ≠ socket_id)⟩

/-- Mirror of `Storage::get_all_statuses`. -/
def Storage.get_all_statuses (s : Storage) : List PeerStatus :=
  s.peers.map Prod.snd

/-! ### Track broadcaster (`src/local/src/broadcaster.rs`)

Wall-clock instants are milliseconds as `Nat`; `Instant::duration_since`
becomes truncated subtraction (the pli task only compares a later instant
against an earlier one). -/

/-- Mirror of `PictureLossIndication` (the two SSRC fields the task sets). -/
structure PliPacket where
  sender_ssrc : Nat
  media_ssrc : Nat
deriving DecidableEq, Repr

/-- Log line produced by one iteration of the pli serializer task. -/
inductive PliLog where
  | skippedNonVideo
  | throttled
  | sendFailed
  | sent
deriving DecidableEq, Repr

/-- Outcome of one iteration of the pli serializer task. -/
structure PliStepResult where
  last_pli_at : Option Nat
  written : Option PliPacket
  log : PliLog
deriving DecidableEq, Repr

/-- Mirror of one iteration of the pli task loop in `TrackBroadcaster::new`:
a signal is received; non-video kinds are skipped; if less than 500 ms
passed since `last_pli_time` the request is throttled; otherwise
`last_pli_time` is set to `now` and a PLI with sender SSRC 0 and the
source SSRC is handed to `write_rtcp`, whose success is `writeOk`. -/
def pli_step (kind : String) (ssrc : Nat) (last_pli_time : Option Nat)
    (now : Nat) (writeOk : Bool) : PliStepResult :=
  if kind ≠ "video" then
    ⟨last_pli_time, none, .skippedNonVideo⟩
  else
    let send : PliStepResult :=
      ⟨some now, some ⟨0, ssrc⟩, if writeOk then .sent else .sendFailed⟩
    match last_pli_time with
    | some last => if now - last < 500 then ⟨last_pli_time, none, .throttled⟩ else send
    | none => send

/-- Mirror of `webrtc::Error` as distinguished by the consumer loop. -/
inductive WriteError where
  | closedPipe
  | connectionClosed
  | other (msg : String)
deriving DecidableEq, Repr

/-- One receive on the fan-out channel as seen by a consumer task, together
with the outcome of the subsequent `write_rtp` when a packet arrived. -/
inductive RecvEvent where
  | ok (writeResult : Option WriteError)
  | lagged (skipped : Nat)
  | closed
deriving DecidableEq, Repr

/-- Log line produced by one iteration of a consumer task. -/
inductive ConsumerLog where
  | quiet
  | traceGraceful
  | warnWriteError
  | warnLagged
deriving DecidableEq, Repr

/-- Outcome of one iteration of a consumer task. -/
structure ConsumerStep where
  continues : Bool
  requestsKeyframe : Bool
  log : ConsumerLog
deriving DecidableEq, Repr

/-- Mirror of one iteration of the consumer loop in
`TrackBroadcaster::add_subscriber`: a packet is forwarded via `write_rtp`
(breaking on any write error, silently for `ErrClosedPipe` /
`ErrConnectionClosed`, with a warning otherwise); `Lagged(skipped)` warns,
sends a pli request when `skipped > 10` and keeps receiving; `Closed`
breaks. -/
def consumer_step : RecvEvent → ConsumerStep
  | .ok none => ⟨true, false, .quiet⟩
  | .ok (some e) =>
    match e with
    | .closedPipe => ⟨false, false, .traceGraceful⟩
    | .connectionClosed => ⟨false, false, .traceGraceful⟩
    | .other _ => ⟨false, false, .warnWriteError⟩
  | .lagged skipped => ⟨true, if skipped > 10 then true else false, .warnLagged⟩
  | .closed => ⟨false, false, .quiet⟩

/-- Driver for a consumer task over a sequence of receive events: returns
how many events were consumed before the loop broke (all of them if it
never broke) and how many keyframe requests were enqueued. -/
def consumer_run : List RecvEvent → Nat × Nat
  | [] => (0, 0)
  | ev :: rest =>
    let s := consumer_step ev
    let pli := if s.requestsKeyframe then 1 else 0
    if s.continues then
      let r := consumer_run rest
      (r.1 + 1, r.2 + pli)
    else
      (1, pli)

/-! ### SFU facade (`src/local/src/sfu.rs`, `src/local/src/session.rs`)

External webrtc-library calls are modelled by an oracle `ext : ExtCall → Bool`
telling which call succeeds, and every operation returns the ordered trace
of external calls it performed, so that "no peer-connection resources were
created" is the absence of such calls in the trace. -/

/-- Mirror of `TrackBroadcaster` as seen by the SFU facade: identity,
media kind, mime type, source SSRC, negotiated codec capability, and the
keys of the `subscribers` consumer-task map. -/
structure Broadcaster where
  id : String
  kind : String
  mime_type : String
  ssrc : Nat
  codec_capability : CodecCapability
  subscribers : List String
deriving DecidableEq, Repr

/-- Mirror of `TrackLocalStaticRTP::new(capability, id, stream_id)`. -/
structure LocalTrack where
  codec : CodecCapability
  track_id : String
  stream_id : String
deriving DecidableEq, Repr

/-- Mirror of `PublisherSession`: its `track_id → Broadcaster` map. -/
structure PublisherSession where
  broadcasters : List (String × Broadcaster)
deriving DecidableEq, Repr

/-- Mirror of `SubscriberSession`: the publisher it points at (by id) and
its `(source_track_id, local_track_id)` mapping. -/
structure SubscriberSession where
  publisher_id : String
  track_mapping : List (String × String)
deriving DecidableEq, Repr

/-- Mirror of the mutable state of `LocalSfu`: both session maps and the
metrics counters. -/
structure SfuState where
  publishers : List (String × PublisherSession)
  subscribers : List (String × SubscriberSession)
  metrics : List (String × Nat)
deriving DecidableEq, Repr

/-- Mirror of `PerformanceConfig` (`src/local/src/config.rs`). -/
structure PerformanceConfig where
  broadcast_channel_capacity : Nat
  max_publishers : Nat
  max_subscribers_per_publisher : Nat
deriving DecidableEq, Repr

/-- Defaults of `PerformanceConfig::default()`. -/
def PerformanceConfig.default : PerformanceConfig := ⟨1000, 1000, 100⟩

/-- External calls that create or use peer-connection resources. -/
inductive ExtCall where
  | newPeerConnection
  | setRemoteDescription
  | createAnswer
  | setLocalDescription
  | addTrack (track_id : String)
deriving DecidableEq, Repr

/-- Mirror of `LocalSfu::update_metrics`: `and_modify` clamps at zero,
`or_insert` starts from `delta.max(0)`. -/
def update_metrics (m : List (String × Nat)) (key : String) (delta : Int) :
    List (String × Nat) :=
  match alookup key m with
  | some v => ainsert key (((v : Int) + delta).toNat) m
  | none => ainsert key (max delta 0).toNat m

/-- Mirror of `LocalSfu::check_publisher_limit`. -/
def check_publisher_limit (cfg : PerformanceConfig) (s : SfuState) :
    Except SfuError Unit :=
  if s.publishers.length ≥ cfg.max_publishers then
    .error (.Internal ("Maximum publisher limit reached: " ++
      toString cfg.max_publishers))
  else
    .ok ()

/-- Mirror of `LocalSfu::check_subscriber_limit`: count the subscriber
sessions attached to this publisher. -/
def check_subscriber_limit (cfg : PerformanceConfig) (s : SfuState)
    (publisher_id : String) : Except SfuError Unit :=
  let subscriber_count :=
    (s.subscribers.filter (fun kv => kv.2.publisher_id = publisher_id)).length
  if subscriber_count ≥ cfg.max_subscribers_per_publisher then
    .error (.Internal ("Maximum subscriber limit reached for publisher " ++
      publisher_id ++ ": " ++ toString cfg.max_subscribers_per_publisher))
  else
    .ok ()

/-- Result of `LocalSfu::add_publisher`: the ordered trace of external
calls, the resulting state, and the error if the call failed. -/
structure AddPublisherResult where
  calls : List ExtCall
  state : SfuState
  error : Option SfuError
deriving DecidableEq, Repr

/-- Mirror of `LocalSfu::add_publisher`: check the publisher limit, create
the peer connection, register callbacks (no immediate state effect: the
broadcaster map starts empty and fills from `on_track` later), run the
SDP exchange, then record the session and bump the `publishers` counter. -/
def add_publisher (cfg : PerformanceConfig) (ext : ExtCall → Bool)
    (s : SfuState) (publisher_id : String) : AddPublisherResult :=
  match check_publisher_limit cfg s with
  | .error e => ⟨[], s, some e⟩
  | .ok _ =>
    if ext .newPeerConnection then
      if ext .setRemoteDescription then
        if ext .createAnswer then
          if ext .setLocalDescription then
            ⟨[.newPeerConnection, .setRemoteDescription, .createAnswer,
              .setLocalDescription],
             { s with
                publishers := ainsert publisher_id ⟨[]⟩ s.publishers,
                metrics := update_metrics s.metrics "publishers" 1 },
             none⟩
          else
            ⟨[.newPeerConnection, .setRemoteDescription, .createAnswer,
              .setLocalDescription], s, some (.SetLocalDescription "external")⟩
        else
          ⟨[.newPeerConnection, .setRemoteDescription, .createAnswer], s,
           some (.CreateAnswer "external")⟩
      else
        ⟨[.newPeerConnection, .setRemoteDescription], s,
         some (.SetRemoteDescription "external")⟩
    else
      ⟨[.newPeerConnection], s, some (.PeerConnectionCreation "external")⟩

/-- Mirror of `DashMap::insert` on a map modelled by its key list
(the `subscribers` consumer-task map of a broadcaster). -/
def insert_key (k : String) (l : List String) : List String :=
  if k ∈ l then l else k :: l

/-- Result of the per-broadcaster loop inside `LocalSfu::add_subscriber`. -/
structure SubscribeLoopResult where
  calls : List ExtCall
  tracks : List LocalTrack
  mapping : List (String × String)
  broadcasters : List (String × Broadcaster)
  error : Option SfuError
deriving DecidableEq, Repr

/-- Mirror of the `for (original_track_id, broadcaster) in broadcasters`
loop of `LocalSfu::add_subscriber`: per source broadcaster, build a local
track named `original_track_id ++ "-" ++ subscriber_id` on stream
`"stream-" ++ publisher_id` from the broadcaster's codec capability, call
`add_track` (aborting the whole call on failure), spawn the RTCP reader,
attach the track to the broadcaster, and record the mapping pair. -/
def subscribe_loop (ext : ExtCall → Bool) (subscriber_id publisher_id : String) :
    List (String × Broadcaster) → SubscribeLoopResult
  | [] => ⟨[], [], [], [], none⟩
  | (original_track_id, b) :: rest =>
    let local_track_id := original_track_id ++ "-" ++ subscriber_id
    let local_track : LocalTrack :=
      ⟨b.codec_capability, local_track_id, "stream-" ++ publisher_id⟩
    if ext (.addTrack local_track_id) then
      let b2 := { b with subscribers := insert_key local_track_id b.subscribers }
      let r := subscribe_loop ext subscriber_id publisher_id rest
      ⟨.addTrack local_track_id :: r.calls,
       local_track :: r.tracks,
       (original_track_id, local_track_id) :: r.mapping,
       (original_track_id, b2) :: r.broadcasters,
       r.error⟩
    else
      ⟨[.addTrack local_track_id], [local_track], [],
       (original_track_id, b) :: rest, some (.AddTrack "external")⟩

/-- Result of `LocalSfu::add_subscriber`: external-call trace, resulting
state (including partial broadcaster mutations on failure, since
broadcasters are shared by reference), the created local tracks, and the
error if the call failed. -/
structure AddSubscriberResult where
  calls : List ExtCall
  state : SfuState
  created_tracks : List LocalTrack
  error : Option SfuError
deriving DecidableEq, Repr

/-- Mirror of `LocalSfu::add_subscriber`: check the per-publisher
subscriber limit, look the publisher up, create the peer connection,
snapshot the broadcaster map and run the per-broadcaster loop, run the
SDP exchange, then record the subscriber session (with its track mapping)
and bump the `subscribers` counter. -/
def add_subscriber (cfg : PerformanceConfig) (ext : ExtCall → Bool)
    (s : SfuState) (subscriber_id publisher_id : String) : AddSubscriberResult :=
  match check_subscriber_limit cfg s publisher_id with
  | .error e => ⟨[], s, [], some e⟩
  | .ok _ =>
    match alookup publisher_id s.publishers with
    | none => ⟨[], s, [], some (.PublisherNotFound publisher_id)⟩
    | some pub =>
      if ext .newPeerConnection then
        let snapshot := pub.broadcasters
        let L := subscribe_loop ext subscriber_id publisher_id snapshot
        let s1 : SfuState :=
          { s with publishers := ainsert publisher_id ⟨L.broadcasters⟩ s.publishers }
        match L.error with
        | some e => ⟨.newPeerConnection :: L.calls, s1, L.tracks, some e⟩
        | none =>
          if ext .setRemoteDescription then
            if ext .createAnswer then
              if ext .setLocalDescription then
                ⟨.newPeerConnection :: L.calls ++
                  [.setRemoteDescription, .createAnswer, .setLocalDescription],
                 { s1 with
                    subscribers :=
                      ainsert subscriber_id ⟨publisher_id, L.mapping⟩ s1.subscribers,
                    metrics := update_metrics s1.metrics "subscribers" 1 },
                 L.tracks, none⟩
              else
                ⟨.newPeerConnection :: L.calls ++
                  [.setRemoteDescription, .createAnswer, .setLocalDescription],
                 s1, L.tracks, some (.SetLocalDescription "external")⟩
            else
              ⟨.newPeerConnection :: L.calls ++
                [.setRemoteDescription, .createAnswer],
               s1, L.tracks, some (.CreateAnswer "external")⟩
          else
            ⟨.newPeerConnection :: L.calls ++ [.setRemoteDescription],
             s1, L.tracks, some (.SetRemoteDescription "external")⟩
      else
        ⟨[.newPeerConnection], s, [], some (.PeerConnectionCreation "external")⟩

/-- Mirror of `LocalSfu::remove_publisher`: remove the session if present
and decrement the `publishers` counter; always returns success. -/
def remove_publisher (s : SfuState) (publisher_id : String) : SfuState :=
  let r := aremove publisher_id s.publishers
  match r.1 with
  | some _ =>
    { s with publishers := r.2,
             metrics := update_metrics s.metrics "publishers" (-1) }
  | none => s

/-- Mirror of the per-mapping loop of `LocalSfu::remove_subscriber`: for
each `(original_track_id, local_track_id)` pair, if the broadcaster still
exists, remove the consumer task keyed by the local track id. -/
def remove_mapping_from_broadcasters :
    List (String × String) → List (String × Broadcaster) → List (String × Broadcaster)
  | [], bs => bs
  | (original_track_id, local_track_id) :: rest, bs =>
    let bs2 :=
      match alookup original_track_id bs with
      | none => bs
      | some b =>
        ainsert original_track_id
          { b with subscribers := b.subscribers.filter (fun k => k ≠ local_track_id) }
          bs
    remove_mapping_from_broadcasters rest bs2

/-- Mirror of `LocalSfu::remove_subscriber`: remove the session if
present; when its publisher still exists, detach each local track from
the matching broadcaster; decrement the `subscribers` counter; always
returns success (an absent id is a no-op). -/
def remove_subscriber (s : SfuState) (subscriber_id : String) : SfuState :=
  let r := aremove subscriber_id s.subscribers
  match r.1 with
  | none => s
  | some sess =>
    let s1 : SfuState := { s with subscribers := r.2 }
    let s2 :=
      match alookup sess.publisher_id s1.publishers with
      | none => s1
      | some pub =>
        { s1 with
            publishers :=
              ainsert sess.publisher_id
                ⟨remove_mapping_from_broadcasters sess.track_mapping pub.broadcasters⟩
                s1.publishers }
    { s2 with metrics := update_metrics s2.metrics "subscribers" (-1) }

/-! ### Signaling handlers (`src/server/src/handlers/*.rs`) and the
WebSocket wrapper (`src/server/src/websocket.rs`)

The server crate contains two handler generations: the live module tree
`handlers/` (re-exported by `lib.rs` together with `websocket::WsSession`)
and a stale flat `handlers.rs` with its own private `WsSession`. Both are
embedded, with `legacy_` prefixes for the latter. -/

/-- Combined application state of the server (`src/server/src/state.rs`):
the SFU, the peer registry, and the SFU instance id. -/
structure AppState where
  sfu_id : String
  sfu : SfuState
  storage : Storage
deriving DecidableEq, Repr

/-- Mirror of the `HealthResponse` JSON body (`src/server/src/handlers/api.rs`). -/
structure HealthResponse where
  status : String
  sfu_id : String
  publishers : Nat
  subscribers : Nat
deriving DecidableEq, Repr

/-- Mirror of the `health` handler: status is the literal `"ok"`,
`publishers` counts the peer-registry entries via
`storage.get_all_statuses().len()`, and `subscribers` is the literal 0. -/
def health (st : AppState) : HealthResponse :=
  ⟨"ok", st.sfu_id, st.storage.get_all_statuses.length, 0⟩

/-- Payload of an inbound player OFFER (`protocol::OfferMessage`, the
fields `handle_subscribe_offer` reads). -/
structure OfferData where
  sdp : String
  peer_name : Option String
deriving DecidableEq, Repr

/-- Outbound messages a player handler can queue on the WebSocket. -/
inductive PlayerOut where
  | authRequest
  | authFailed (access_message : String)
  | initPeer
  | answer (peer_name : String)
  | serverIce
  | offerFailed
  | pong
deriving DecidableEq, Repr

/-- Mirror of `handle_subscribe_offer` (`src/server/src/handlers/player.rs`):
require the offer payload and its `peer_name`, look the peer up in the
registry (returning `PeerNotFound` when absent), parse the SDP (success
modelled by `sdp_parse_ok`), then call `Sfu::add_subscriber` with the
peer's socket id as publisher id; reply `ANSWER` on success, and
`OFFER_FAILED` exactly when `add_subscriber` failed. Returns the queued
messages, the SFU state afterwards, and the handler's error result. -/
def handle_subscribe_offer (cfg : PerformanceConfig) (ext : ExtCall → Bool)
    (sdp_parse_ok : Bool) (storage : Storage) (sfu : SfuState)
    (session_id : String) (offer : Option OfferData) :
    List PlayerOut × SfuState × Option SignallingError :=
  match offer with
  | none => ([], sfu, some (.InvalidMessageFormat "Missing offer data"))
  | some offer_data =>
    match offer_data.peer_name with
    | none => ([], sfu, some (.InvalidMessageFormat "Missing peer_name"))
    | some target_peer =>
      match storage.get_peer_by_name target_peer with
      | none => ([], sfu, some (.PeerNotFound target_peer))
      | some peer_status =>
        if sdp_parse_ok then
          let r := add_subscriber cfg ext sfu session_id peer_status.socket_id
          match r.error with
          | none => ([.answer target_peer], r.state, none)
          | some e => ([.offerFailed], r.state, some (.SfuError e))
        else
          ([], sfu, some (.InvalidMessageFormat "Invalid SDP offer: external"))

/-- Which specialised handler `handle_player_message` routes an inbound
event string to (`src/server/src/handlers/player.rs`). -/
inductive PlayerHandlerChoice where
  | subscribeOffer
  | playerIce
  | pongReply
  | unknownEvent
deriving DecidableEq, Repr

/-- Mirror of the `match msg.event.as_str()` in `handle_player_message`. -/
def handle_player_message_dispatch (event : String) : PlayerHandlerChoice :=
  if event = "OFFER" then .subscribeOffer
  else if event = "PLAYER_ICE" then .playerIce
  else if event = "PING" then .pongReply
  else .unknownEvent

/-- Which specialised handler `handle_grabber_message` routes an inbound
event string to (`src/server/src/handlers/grabber.rs`); `credentialCheck`
is what an authentication step would be — no grabber event routes there. -/
inductive GrabberHandlerChoice where
  | ping
  | publisherOffer
  | grabberIce
  | unknownEvent
  | credentialCheck
deriving DecidableEq, Repr

/-- Mirror of the `match msg.event.as_str()` in `handle_grabber_message`:
`PING`, `OFFER` / `OFFER_ANSWER`, `GRABBER_ICE`, and a warn-and-ignore
default for everything else. -/
def handle_grabber_message_dispatch (event : String) : GrabberHandlerChoice :=
  if event = "PING" then .ping
  else if event = "OFFER" then .publisherOffer
  else if event = "OFFER_ANSWER" then .publisherOffer
  else if event = "GRABBER_ICE" then .grabberIce
  else .unknownEvent

/-- Ordered actions of `handle_grabber_connection` up to and including
entering the receive loop. -/
inductive GrabberAction where
  | registerPeer (name session_id : String)
  | sendInitPeer
  | enterRecvLoop
deriving DecidableEq, Repr

/-- Mirror of the start of `handle_grabber_connection`
(`src/server/src/handlers/grabber.rs`): build the session id
`"grabber-" ++ addr`, register the peer in the registry, send `INIT_PEER`,
then enter the receive loop — in that order, with no credential exchange. -/
def handle_grabber_connection_actions (name addr : String) : List GrabberAction :=
  [.registerPeer name ("grabber-" ++ addr), .sendInitPeer, .enterRecvLoop]

/-- Effect of `handle_grabber_connection` on the registry before the first
client message is read: `storage.add_peer(name, session_id)`. -/
def handle_grabber_connection_register (storage : Storage) (name addr : String)
    (now : Int) : Storage :=
  storage.add_peer name ("grabber-" ++ addr) now

/-- Tasks spawned by a WebSocket session wrapper. -/
inductive SpawnedTask where
  | senderDrain
  | keepalivePing (interval_secs : Nat)
deriving DecidableEq, Repr

/-- Mirror of `WsSession::new` in `src/server/src/websocket.rs` (the
wrapper used by the live grabber and player handlers): it spawns only the
task draining the outbound queue into the socket. -/
def ws_session_new_tasks : List SpawnedTask := [.senderDrain]

/-- Mirror of `WsSession::new` in the stale flat `src/server/src/handlers.rs`:
it spawns the outbound drain task and a keepalive task sending a `PING`
with a timestamp every 30 seconds. -/
def legacy_ws_session_new_tasks : List SpawnedTask :=
  [.senderDrain, .keepalivePing 30]

/-- Tasks backing a live grabber session: `handlers/grabber.rs` constructs
its session via `crate::websocket::WsSession::new`. -/
def grabber_session_tasks : List SpawnedTask := ws_session_new_tasks

/-- Tasks backing a live player session: `handlers/player.rs` constructs
its session via `crate::websocket::WsSession::new`. -/
def player_session_tasks : List SpawnedTask := ws_session_new_tasks

/-- Send schedule of the legacy 30-second keepalive task: the seconds
(since session start) at which a `PING` is queued, up to horizon `t`. -/
def legacy_keepalive_ping_times (t : Nat) : List Nat :=
  (List.range (t / 30)).map (fun i => 30 * (i + 1))

/-! ### Concrete fixtures used to evaluate the model on closed inputs -/

/-- Fixture: a video broadcaster as built by `on_track` for a VP8 source. -/
def fixtureVideoBroadcaster : Broadcaster :=
  ⟨"t1", "video", "video/VP8", 1111, ⟨"video/VP8", 90000, 0, ""⟩, []⟩

/-- Fixture: an audio broadcaster as built by `on_track` for an opus source. -/
def fixtureAudioBroadcaster : Broadcaster :=
  ⟨"t2", "audio", "audio/opus", 2222, ⟨"audio/opus", 48000, 2, "minptime=10"⟩, []⟩

/-- Fixture: an SFU state holding one publisher `pub1` with the two
broadcasters above and no subscribers. -/
def fixtureSfuState : SfuState :=
  ⟨[("pub1", ⟨[("t1", fixtureVideoBroadcaster), ("t2", fixtureAudioBroadcaster)]⟩)],
   [], []⟩

/-- Fixture: the oracle under which every external webrtc call succeeds. -/
def extAllOk : ExtCall → Bool := fun _ => true

/-- Fixture: an SFU state with one publisher `p`, one subscriber `s`
attached to it, and both counters at 1. -/
def fixtureRemovalState : SfuState :=
  ⟨[("p", ⟨[]⟩)], [("s", ⟨"p", [("t1", "t1-s")]⟩)],
   [("publishers", 1), ("subscribers", 1)]⟩

/-! ## Helper lemmas -/

theorem alookup_ainsert_self (k : String) (v : α) (m : List (String × α)) :
    alookup k (ainsert k v m) = some v := by
  induction m with
  | nil => simp [ainsert, alookup]
  | cons hd tl ih =>
    obtain ⟨a, b⟩ := hd
    by_cases h : a = k <;> simp [ainsert, alookup, h, ih]

theorem alookup_ainsert_ne (k j : String) (v : α) (m : List (String × α))
    (hne : j ≠ k) : alookup j (ainsert k v m) = alookup j m := by
  have hkj : k ≠ j := Ne.symm hne
  induction m with
  | nil => simp [ainsert, alookup, hkj]
  | cons hd tl ih =>
    obtain ⟨a, b⟩ := hd
    by_cases h : a = k
    · subst h
      simp [ainsert, alookup, hkj]
    · simp [ainsert, alookup, h, ih]

theorem aremove_not_mem (k : String) (m : List (String × α))
    (h : alookup k m = none) : aremove k m = (none, m) := by
  induction m with
  | nil => simp [aremove]
  | cons hd tl ih =>
    obtain ⟨a, b⟩ := hd
    by_cases hk : a = k
    · simp [alookup, hk] at h
    · simp [alookup, hk] at h
      simp [aremove, hk, ih h]

theorem alookup_eq_none_of_not_mem_keys (k : String) (m : List (String × α))
    (h : k ∉ m.map Prod.fst) : alookup k m = none := by
  induction m with
  | nil => simp [alookup]
  | cons hd tl ih =>
    obtain ⟨a, b⟩ := hd
    simp only [List.map_cons, List.mem_cons, not_or] at h
    have hak : a ≠ k := Ne.symm h.1
    simp [alookup, hak, ih h.2]

theorem alookup_aremove_self (k : String) (m : List (String × α))
    (hnd : (m.map Prod.fst).Nodup) : alookup k (aremove k m).2 = none := by
  induction m with
  | nil => simp [aremove, alookup]
  | cons hd tl ih =>
    obtain ⟨a, b⟩ := hd
    simp only [List.map_cons, List.nodup_cons] at hnd
    by_cases hk : a = k
    · subst hk
      simp only [aremove, if_pos rfl]
      exact alookup_eq_none_of_not_mem_keys a tl hnd.1
    · simp [aremove, hk, alookup, ih hnd.2]

theorem aremove_fst_none (k : String) (m : List (String × α))
    (h : (aremove k m).1 = none) : alookup k m = none := by
  induction m with
  | nil => simp [alookup]
  | cons hd tl ih =>
    obtain ⟨a, b⟩ := hd
    by_cases hk : a = k
    · simp [aremove, hk] at h
    · simp [aremove, hk] at h
      simp [alookup, hk, ih h]

theorem ainsert_keys (k : String) (v : α) (m : List (String × α)) :
    (ainsert k v m).map Prod.fst =
      if k ∈ m.map Prod.fst then m.map Prod.fst else m.map Prod.fst ++ [k] := by
  induction m with
  | nil => simp [ainsert]
  | cons hd tl ih =>
    obtain ⟨a, b⟩ := hd
    by_cases h : a = k
    · subst h
      simp [ainsert]
    · have hka : ¬ k = a := fun hh => h hh.symm
      by_cases hmem : k ∈ tl.map Prod.fst <;>
        simp [ainsert, h, ih, hmem, hka]

theorem ainsert_keys_nodup (k : String) (v : α) (m : List (String × α))
    (hnd : (m.map Prod.fst).Nodup) : ((ainsert k v m).map Prod.fst).Nodup := by
  rw [ainsert_keys]
  by_cases hmem : k ∈ m.map Prod.fst
  · simpa [hmem] using hnd
  · simp only [hmem, if_false, List.nodup_append, List.nodup_singleton]
    refine ⟨hnd, by simp, ?_⟩
    intro x hx hxk
    simp only [List.mem_singleton] at hxk
    exact hmem (hxk ▸ hx)

theorem alookup_update_ping_socket (name socket_id : String) (c : Nat)
    (st : List String) (now : Int) (m : List (String × PeerStatus)) :
    (alookup name (update_ping_list socket_id c st now m)).map PeerStatus.socket_id =
      (alookup name m).map PeerStatus.socket_id := by
  induction m with
  | nil => simp [update_ping_list]
  | cons hd tl ih =>
    obtain ⟨a, b⟩ := hd
    by_cases hs : b.socket_id = socket_id
    · by_cases ha : a = name <;>
        simp [update_ping_list, hs, alookup, ha]
    · by_cases ha : a = name <;>
        simp [update_ping_list, hs, alookup, ha, ih]

theorem alookup_filter_keep (name : String) (p : String × PeerStatus → Bool)
    (m : List (String × PeerStatus)) (v : PeerStatus)
    (hv : alookup name m = some v) (hp : p (name, v) = true) :
    alookup name (m.filter p) = some v := by
  induction m with
  | nil => simp [alookup] at hv
  | cons hd tl ih =>
    obtain ⟨a, b⟩ := hd
    by_cases ha : a = name
    · subst ha
      simp [alookup] at hv
      subst hv
      simp [List.filter, hp, alookup]
    · simp only [alookup, if_neg ha] at hv
      by_cases hpb : p (a, b) = true
      · simp [List.filter, hpb, alookup, ha, ih hv]
      · simp only [Bool.not_eq_true] at hpb
        simp [List.filter, hpb, ih hv]

/-- Characterization of the per-broadcaster loop of `add_subscriber` when
it succeeds: one local track and one mapping pair per snapshot entry, in
order, with the claimed naming, stream id and codec capability. -/
theorem subscribe_loop_ok (ext : ExtCall → Bool) (sid pid : String)
    (bs : List (String × Broadcaster))
    (h : (subscribe_loop ext sid pid bs).error = none) :
    (subscribe_loop ext sid pid bs).tracks =
      bs.map (fun tb => ⟨tb.2.codec_capability, tb.1 ++ "-" ++ sid, "stream-" ++ pid⟩) ∧
    (subscribe_loop ext sid pid bs).mapping =
      bs.map (fun tb => (tb.1, tb.1 ++ "-" ++ sid)) := by
  induction bs with
  | nil => simp [subscribe_loop]
  | cons hd tl ih =>
    obtain ⟨tid, b⟩ := hd
    by_cases hext : ext (.addTrack (tid ++ "-" ++ sid))
    · simp only [subscribe_loop, if_pos hext] at h ⊢
      obtain ⟨h1, h2⟩ := ih h
      simp [h1, h2]
    · simp [subscribe_loop, if_neg hext] at h

/-- Lookup of a just-removed publisher id fails when the map keys were
unique: the basis of idempotent removal. -/
theorem remove_publisher_self_lookup (s : SfuState) (pid : String)
    (hnd : (s.publishers.map Prod.fst).Nodup) :
    alookup pid (remove_publisher s pid).publishers = none := by
  simp only [remove_publisher]
  rcases hc : (aremove pid s.publishers).1 with _ | v
  · simp only [hc]
    exact aremove_fst_none pid s.publishers hc
  · simp only [hc]
    exact alookup_aremove_self pid s.publishers hnd

/-- Lookup of a just-removed subscriber id fails when the map keys were
unique. -/
theorem remove_subscriber_self_lookup (s : SfuState) (sid : String)
    (hnd : (s.subscribers.map Prod.fst).Nodup) :
    alookup sid (remove_subscriber s sid).subscribers = none := by
  simp only [remove_subscriber]
  rcases hc : (aremove sid s.subscribers).1 with _ | sess
  · simp only [hc]
    exact aremove_fst_none sid s.subscribers hc
  · simp only [hc]
    rcases hp : alookup sess.publisher_id s.publishers with _ | pub
    · simp only [hp]
      exact alookup_aremove_self sid s.subscribers hnd
    · simp only [hp]
      exact alookup_aremove_self sid s.subscribers hnd

/-! ## Claims -/

/-- C4: at the publisher cap, `add_publisher` fails with an `Internal`
error naming the limit, performs no external call (in particular creates
no peer connection) and leaves the whole state — session maps and
counters — unchanged; likewise `add_subscriber` at the per-publisher
subscriber cap. -/
theorem c4_admission_limits (cfg : PerformanceConfig) (ext : ExtCall → Bool)
    (s : SfuState) (pid sid : String) :
    (cfg.max_publishers ≤ s.publishers.length →
      add_publisher cfg ext s pid =
        ⟨[], s, some (.Internal ("Maximum publisher limit reached: " ++
          toString cfg.max_publishers))⟩) ∧
    (cfg.max_subscribers_per_publisher ≤
        (s.subscribers.filter (fun kv => kv.2.publisher_id = pid)).length →
      add_subscriber cfg ext s sid pid =
        ⟨[], s, [], some (.Internal ("Maximum subscriber limit reached for publisher "
          ++ pid ++ ": " ++ toString cfg.max_subscribers_per_publisher))⟩) := by
  constructor
  · intro h
    simp [add_publisher, check_publisher_limit, ge_iff_le, h]
  · intro h
    simp [add_subscriber, check_subscriber_limit, ge_iff_le, h]

/-- C4, witness: with a zero publisher cap an `add_publisher` on the empty
state is rejected with the limit-naming message and no external call, and
symmetrically for a zero subscriber cap. -/
theorem c4_admission_witness :
    add_publisher ⟨1000, 0, 100⟩ extAllOk ⟨[], [], []⟩ "p" =
      ⟨[], ⟨[], [], []⟩, some (.Internal ("Maximum publisher limit reached: " ++
        toString (0 : Nat)))⟩ ∧
    add_subscriber ⟨1000, 1000, 0⟩ extAllOk ⟨[], [], []⟩ "s" "p" =
      ⟨[], ⟨[], [], []⟩, [], some (.Internal
        ("Maximum subscriber limit reached for publisher " ++ "p" ++ ": " ++
          toString (0 : Nat)))⟩ :=
  ⟨(c4_admission_limits ⟨1000, 0, 100⟩ extAllOk ⟨[], [], []⟩ "p" "s").1 (by decide),
   (c4_admission_limits ⟨1000, 1000, 0⟩ extAllOk ⟨[], [], []⟩ "p" "s").2 (by decide)⟩

/-- C5, counterexample: a player OFFER naming an unregistered peer
(`alice`, empty registry) produces no outbound message at all — in
particular no `OFFER_FAILED` — and returns `PeerNotFound`; the claim that
`OFFER_FAILED` is emitted fails on this input. -/
theorem c5_missing_peer_counterexample :
    handle_subscribe_offer PerformanceConfig.default extAllOk true ⟨[]⟩ ⟨[], [], []⟩
        "player-1" (some ⟨"v=0", some "alice"⟩) =
      ([], ⟨[], [], []⟩, some (.PeerNotFound "alice")) ∧
    PlayerOut.offerFailed ∉
      (handle_subscribe_offer PerformanceConfig.default extAllOk true ⟨[]⟩ ⟨[], [], []⟩
        "player-1" (some ⟨"v=0", some "alice"⟩)).1 := by
  decide

/-- C5, amended: for every player OFFER whose `peer_name` is absent from
the peer registry, the handler queues no message on the WebSocket
(so no `OFFER_FAILED`), leaves the SFU state unchanged (no subscriber
session is created), and returns a `PeerNotFound` error which the message
loop merely logs. -/
theorem c5_missing_peer_behaviour (cfg : PerformanceConfig) (ext : ExtCall → Bool)
    (sdp_parse_ok : Bool) (storage : Storage) (sfu : SfuState)
    (session_id sdp target : String)
    (h : storage.get_peer_by_name target = none) :
    handle_subscribe_offer cfg ext sdp_parse_ok storage sfu session_id
        (some ⟨sdp, some target⟩) =
      ([], sfu, some (.PeerNotFound target)) := by
  simp [handle_subscribe_offer, h]

/-- C5, witness: the amended behaviour at a concrete input. -/
theorem c5_missing_peer_witness :
    handle_subscribe_offer PerformanceConfig.default extAllOk true ⟨[]⟩ ⟨[], [], []⟩
        "player-2" (some ⟨"v=0", some "bob"⟩) =
      ([], ⟨[], [], []⟩, some (.PeerNotFound "bob")) :=
  c5_missing_peer_behaviour PerformanceConfig.default extAllOk true ⟨[]⟩ ⟨[], [], []⟩
    "player-2" "v=0" "bob" rfl

/-- C6: `remove_publisher` and `remove_subscriber` are no-ops on absent
ids (the Rust functions return `Ok(())` unconditionally, so success is
implicit in the model), leaving the session maps and both counters
unchanged; consequently a second removal right after a successful one
changes nothing. -/
theorem c6_remove_idempotent (s : SfuState) (pid sid : String) :
    (alookup pid s.publishers = none → remove_publisher s pid = s) ∧
    (alookup sid s.subscribers = none → remove_subscriber s sid = s) ∧
    ((s.publishers.map Prod.fst).Nodup →
      remove_publisher (remove_publisher s pid) pid = remove_publisher s pid) ∧
    ((s.subscribers.map Prod.fst).Nodup →
      remove_subscriber (remove_subscriber s sid) sid = remove_subscriber s sid) := by
  have hpub_abs : ∀ t : SfuState, alookup pid t.publishers = none →
      remove_publisher t pid = t := by
    intro t h
    simp [remove_publisher, aremove_not_mem pid t.publishers h]
  have hsub_abs : ∀ t : SfuState, alookup sid t.subscribers = none →
      remove_subscriber t sid = t := by
    intro t h
    simp [remove_subscriber, aremove_not_mem sid t.subscribers h]
  refine ⟨hpub_abs s, hsub_abs s, ?_, ?_⟩
  · intro hnd
    exact hpub_abs _ (remove_publisher_self_lookup s pid hnd)
  · intro hnd
    exact hsub_abs _ (remove_subscriber_self_lookup s sid hnd)

/-- C6, witness: on a state with publisher `p` and subscriber `s`,
removing the unknown id `nope` changes nothing, and the second of two
successive removals of `p` (resp. `s`) changes nothing. -/
theorem c6_remove_witness :
    remove_publisher fixtureRemovalState "nope" = fixtureRemovalState ∧
    remove_subscriber fixtureRemovalState "nope" = fixtureRemovalState ∧
    remove_publisher (remove_publisher fixtureRemovalState "p") "p" =
      remove_publisher fixtureRemovalState "p" ∧
    remove_subscriber (remove_subscriber fixtureRemovalState "s") "s" =
      remove_subscriber fixtureRemovalState "s" :=
  ⟨(c6_remove_idempotent fixtureRemovalState "nope" "nope").1 (by decide),
   (c6_remove_idempotent fixtureRemovalState "nope" "nope").2.1 (by decide),
   (c6_remove_idempotent fixtureRemovalState "p" "s").2.2.1 (by decide),
   (c6_remove_idempotent fixtureRemovalState "p" "s").2.2.2 (by decide)⟩

/-- C7: the peer registry keeps at most one entry per name (key
uniqueness is preserved by registration, which overwrites in place), a
registration makes `get_peer_by_name` return exactly the registered
session id, a re-registration of the same name replaces the entry, and
the binding survives ping updates, registrations of other names, and
removals of other session ids. -/
theorem c7_peer_registry (s : Storage) (name sid : String) (now : Int) :
    ((s.peers.map Prod.fst).Nodup →
      ((s.add_peer name sid now).peers.map Prod.fst).Nodup) ∧
    (s.add_peer name sid now).get_peer_by_name name =
      some ⟨name, sid, true, 0, [], now⟩ ∧
    (∀ sid2 now2,
      ((s.add_peer name sid now).add_peer name sid2 now2).get_peer_by_name name =
        some ⟨name, sid2, true, 0, [], now2⟩) ∧
    (∀ q c st now2,
      ((((s.add_peer name sid now).update_ping q c st now2).get_peer_by_name name).map
        PeerStatus.socket_id) = some sid) ∧
    (∀ name2 sid2 now2, name2 ≠ name →
      ((s.add_peer name sid now).add_peer name2 sid2 now2).get_peer_by_name name =
        some ⟨name, sid, true, 0, [], now⟩) ∧
    (∀ q, q ≠ sid →
      ((s.add_peer name sid now).remove_peer_by_socket_id q).get_peer_by_name name =
        some ⟨name, sid, true, 0, [], now⟩) := by
  refine ⟨?_, ?_, ?_, ?_, ?_, ?_⟩
  · intro h
    exact ainsert_keys_nodup name _ s.peers h
  · exact alookup_ainsert_self name _ s.peers
  · intro sid2 now2
    exact alookup_ainsert_self name _ _
  · intro q c st now2
    simp only [Storage.update_ping, Storage.get_peer_by_name, Storage.add_peer]
    rw [alookup_update_ping_socket]
    rw [alookup_ainsert_self]
    rfl
  · intro name2 sid2 now2 hne
    simp only [Storage.add_peer, Storage.get_peer_by_name]
    rw [alookup_ainsert_ne _ _ _ _ (Ne.symm hne)]
    exact alookup_ainsert_self name _ s.peers
  · intro q hq
    simp only [Storage.add_peer, Storage.get_peer_by_name,
      Storage.remove_peer_by_socket_id]
    exact alookup_filter_keep name _ _ _ (alookup_ainsert_self name _ s.peers)
      (by simpa using Ne.symm hq)

/-- C7, witness: the registry facts at a concrete registration of
`alice` with session id `p1`. -/
theorem c7_peer_registry_witness :
    (((Storage.add_peer ⟨[]⟩ "alice" "p1" 5).peers.map Prod.fst).Nodup) ∧
    (Storage.add_peer ⟨[]⟩ "alice" "p1" 5).get_peer_by_name "alice" =
      some ⟨"alice", "p1", true, 0, [], 5⟩ ∧
    ((Storage.add_peer ⟨[]⟩ "alice" "p1" 5).add_peer "alice" "p2" 6).get_peer_by_name
      "alice" = some ⟨"alice", "p2", true, 0, [], 6⟩ ∧
    ((((Storage.add_peer ⟨[]⟩ "alice" "p1" 5).update_ping "p1" 3 ["webcam"]
      7).get_peer_by_name "alice").map PeerStatus.socket_id) = some "p1" ∧
    ((Storage.add_peer ⟨[]⟩ "alice" "p1" 5).add_peer "bob" "p9" 8).get_peer_by_name
      "alice" = some ⟨"alice", "p1", true, 0, [], 5⟩ ∧
    ((Storage.add_peer ⟨[]⟩ "alice" "p1" 5).remove_peer_by_socket_id
      "p9").get_peer_by_name "alice" = some ⟨"alice", "p1", true, 0, [], 5⟩ :=
  ⟨(c7_peer_registry ⟨[]⟩ "alice" "p1" 5).1 (by decide),
   (c7_peer_registry ⟨[]⟩ "alice" "p1" 5).2.1,
   (c7_peer_registry ⟨[]⟩ "alice" "p1" 5).2.2.1 "p2" 6,
   (c7_peer_registry ⟨[]⟩ "alice" "p1" 5).2.2.2.1 "p1" 3 ["webcam"] 7,
   (c7_peer_registry ⟨[]⟩ "alice" "p1" 5).2.2.2.2.1 "bob" "p9" 8 (by decide),
   (c7_peer_registry ⟨[]⟩ "alice" "p1" 5).2.2.2.2.2 "p9" (by decide)⟩

/-- C1: whenever `add_subscriber` succeeds, it creates exactly one local
RTP track per broadcaster in the publisher's snapshot, in order, named
`source_track_id ++ "-" ++ subscriber_id` on stream
`"stream-" ++ publisher_id` and carrying that broadcaster's codec
capability verbatim, and the recorded subscriber session maps each source
track id to exactly that local track id. -/
theorem c1_subscriber_tracks (cfg : PerformanceConfig) (ext : ExtCall → Bool)
    (s : SfuState) (sid pid : String) (pub : PublisherSession)
    (hpub : alookup pid s.publishers = some pub)
    (hok : (add_subscriber cfg ext s sid pid).error = none) :
    (add_subscriber cfg ext s sid pid).created_tracks =
      pub.broadcasters.map
        (fun tb => ⟨tb.2.codec_capability, tb.1 ++ "-" ++ sid, "stream-" ++ pid⟩) ∧
    alookup sid (add_subscriber cfg ext s sid pid).state.subscribers =
      some ⟨pid, pub.broadcasters.map (fun tb => (tb.1, tb.1 ++ "-" ++ sid))⟩ := by
  cases hchk : check_subscriber_limit cfg s pid with
  | error e =>
    simp [add_subscriber, hchk] at hok
  | ok u =>
    by_cases h1 : ext ExtCall.newPeerConnection
    · cases hLerr : (subscribe_loop ext sid pid pub.broadcasters).error with
      | some e =>
        simp [add_subscriber, hchk, hpub, h1, hLerr] at hok
      | none =>
        obtain ⟨ht, hm⟩ := subscribe_loop_ok ext sid pid pub.broadcasters hLerr
        by_cases h2 : ext ExtCall.setRemoteDescription
        · by_cases h3 : ext ExtCall.createAnswer
          · by_cases h4 : ext ExtCall.setLocalDescription
            · constructor
              · simp [add_subscriber, hchk, hpub, h1, hLerr, h2, h3, h4, ht]
              · simp [add_subscriber, hchk, hpub, h1, hLerr, h2, h3, h4,
                  alookup_ainsert_self, hm]
            · simp [add_subscriber, hchk, hpub, h1, hLerr, h2, h3, h4] at hok
          · simp [add_subscriber, hchk, hpub, h1, hLerr, h2, h3] at hok
        · simp [add_subscriber, hchk, hpub, h1, hLerr, h2] at hok
    · simp [add_subscriber, hchk, hpub, h1] at hok

/-- C1, witness: on a state with one publisher `pub1` holding a VP8 video
broadcaster `t1` and an opus audio broadcaster `t2`, adding subscriber
`sub1` with every external call succeeding creates exactly the two tracks
`t1-sub1` and `t2-sub1` on stream `stream-pub1` with the source codec
capabilities, and records the matching two-pair track mapping. -/
theorem c1_subscriber_tracks_witness :
    (add_subscriber PerformanceConfig.default extAllOk fixtureSfuState
        "sub1" "pub1").created_tracks =
      [("t1", fixtureVideoBroadcaster), ("t2", fixtureAudioBroadcaster)].map
        (fun tb => ⟨tb.2.codec_capability, tb.1 ++ "-" ++ "sub1", "stream-" ++ "pub1"⟩) ∧
    alookup "sub1" (add_subscriber PerformanceConfig.default extAllOk fixtureSfuState
        "sub1" "pub1").state.subscribers =
      some ⟨"pub1", [("t1", fixtureVideoBroadcaster),
        ("t2", fixtureAudioBroadcaster)].map
          (fun tb => (tb.1, tb.1 ++ "-" ++ "sub1"))⟩ :=
  c1_subscriber_tracks PerformanceConfig.default extAllOk fixtureSfuState "sub1" "pub1"
    ⟨[("t1", fixtureVideoBroadcaster), ("t2", fixtureAudioBroadcaster)]⟩
    (by decide) (by decide)

/-- C2, counterexample: the pli serializer advances `last_pli_time` to
`now` even when `write_rtcp` fails (log `sendFailed`), and a later request
300 ms after that failed attempt is throttled — contradicting the claim
that `last_pli_at` advances exactly when the write succeeds and that only
time since the last successful send throttles. -/
theorem c2_pli_counterexample :
    (pli_step "video" 42 none 1000 false).last_pli_at = some 1000 ∧
    (pli_step "video" 42 none 1000 false).log = PliLog.sendFailed ∧
    (pli_step "video" 42 (some 1000) 1300 true).written = none := by
  decide

/-- C2, amended: for a video broadcaster, a pli request is dropped exactly
when less than 500 ms passed since the last request that passed the
throttle (successful or not); otherwise a PLI with sender SSRC 0 and the
source SSRC is handed to `write_rtcp` and `last_pli_time` advances to
`now` regardless of the write's outcome; non-video kinds are skipped with
no state change. -/
theorem c2_pli_step_behaviour (ssrc last now : Nat) (ok : Bool) (lt : Option Nat) :
    (pli_step "video" ssrc none now ok =
      ⟨some now, some ⟨0, ssrc⟩, if ok then .sent else .sendFailed⟩) ∧
    (now - last < 500 →
      pli_step "video" ssrc (some last) now ok = ⟨some last, none, .throttled⟩) ∧
    (¬ now - last < 500 →
      pli_step "video" ssrc (some last) now ok =
        ⟨some now, some ⟨0, ssrc⟩, if ok then .sent else .sendFailed⟩) ∧
    (∀ kind, kind ≠ "video" →
      pli_step kind ssrc lt now ok = ⟨lt, none, .skippedNonVideo⟩) := by
  refine ⟨?_, ?_, ?_, ?_⟩
  · simp [pli_step]
  · intro h
    simp [pli_step, h]
  · intro h
    simp [pli_step, h]
  · intro kind hk
    simp [pli_step, hk]

/-- C2, witness: the amended characterization applied at concrete inputs
(a throttled request 100 ms after the last attempt, and an emitted PLI
600 ms after it). -/
theorem c2_pli_step_witness :
    pli_step "video" 7 (some 0) 100 true = ⟨some 0, none, PliLog.throttled⟩ ∧
    pli_step "video" 7 (some 0) 600 true = ⟨some 600, some ⟨0, 7⟩, PliLog.sent⟩ := by
  refine ⟨(c2_pli_step_behaviour 7 0 100 true none).2.1 (by decide), ?_⟩
  have h := (c2_pli_step_behaviour 7 0 600 true none).2.2.1 (by decide)
  simpa using h

/-- C3: a consumer receiving `Lagged(n)` keeps running and enqueues a
keyframe request exactly when `n > 10`; a write error of any kind and a
closed channel both terminate the loop; a successful write keeps it
running; and the run driver keeps consuming events after a lag. -/
theorem c3_consumer_semantics (n : Nat) (e : WriteError) (rest : List RecvEvent) :
    (consumer_step (.lagged n)).continues = true ∧
    ((consumer_step (.lagged n)).requestsKeyframe = true ↔ 10 < n) ∧
    (consumer_step (.ok (some e))).continues = false ∧
    (consumer_step .closed).continues = false ∧
    (consumer_step (.ok none)).continues = true ∧
    consumer_run (.lagged n :: rest) =
      ((consumer_run rest).1 + 1,
       (consumer_run rest).2 + if 10 < n then 1 else 0) := by
  refine ⟨rfl, ?_, ?_, rfl, rfl, ?_⟩
  · by_cases h : 10 < n <;> simp [consumer_step, h, Nat.lt_irrefl]
  · cases e <;> rfl
  · by_cases h : 10 < n <;> simp [consumer_run, consumer_step, h]

/-- C3, witness: a consumer lagging by 11 packets keeps running, requests
one keyframe, and a singleton run records exactly that. -/
theorem c3_consumer_witness :
    (consumer_step (.lagged 11)).continues = true ∧
    (consumer_step (.lagged 11)).requestsKeyframe = true ∧
    consumer_run [.lagged 11] = (1, 1) := by
  obtain ⟨h1, h2, _, _, _, h6⟩ := c3_consumer_semantics 11 (.other "boom") []
  refine ⟨h1, h2.mpr (by decide), ?_⟩
  simpa [consumer_run] using h6

/-- C8, counterexample: neither the grabber nor the player sessions of the
live handler modules spawn any 30-second keepalive task — the wrapper in
`websocket.rs` they use spawns only the outbound drain task. -/
theorem c8_no_keepalive_counterexample :
    SpawnedTask.keepalivePing 30 ∉ grabber_session_tasks ∧
    SpawnedTask.keepalivePing 30 ∉ player_session_tasks := by
  decide

/-- C8, amended: the live grabber and player sessions run only the
sender-drain task (no periodic keepalive of any interval); the 30-second
`PING { timestamp }` keepalive exists only in the stale flat
`handlers.rs` module's private `WsSession`, which the router never uses. -/
theorem c8_session_tasks :
    grabber_session_tasks = [SpawnedTask.senderDrain] ∧
    player_session_tasks = [SpawnedTask.senderDrain] ∧
    (∀ i, SpawnedTask.keepalivePing i ∉ ws_session_new_tasks) ∧
    legacy_ws_session_new_tasks =
      [SpawnedTask.senderDrain, SpawnedTask.keepalivePing 30] ∧
    legacy_keepalive_ping_times 90 = [30, 60, 90] := by
  refine ⟨rfl, rfl, ?_, rfl, by decide⟩
  intro i
  simp [ws_session_new_tasks, grabber_session_tasks, player_session_tasks]

/-- C9: the grabber channel performs no credential check — on connect the
peer is registered under its URL name and `INIT_PEER` is queued before the
receive loop starts, an inbound `AUTH` event falls through to the
warn-and-ignore default, and no grabber event routes to a credential
check. -/
theorem c9_grabber_unauthenticated (name addr : String) (storage : Storage) (now : Int) :
    handle_grabber_connection_actions name addr =
      [.registerPeer name ("grabber-" ++ addr), .sendInitPeer, .enterRecvLoop] ∧
    (handle_grabber_connection_register storage name addr now).get_peer_by_name name =
      some ⟨name, "grabber-" ++ addr, true, 0, [], now⟩ ∧
    handle_grabber_message_dispatch "AUTH" = .unknownEvent ∧
    (∀ e, handle_grabber_message_dispatch e ≠ .credentialCheck) := by
  refine ⟨rfl, ?_, by decide, ?_⟩
  · simp only [handle_grabber_connection_register, Storage.add_peer,
      Storage.get_peer_by_name]
    exact alookup_ainsert_self name _ storage.peers
  · intro e
    unfold handle_grabber_message_dispatch
    split_ifs <;> simp

/-- C9, witness: the registration/dispatch facts at a concrete connection. -/
theorem c9_grabber_witness :
    (handle_grabber_connection_register ⟨[]⟩ "alice" "10.0.0.1:4444" 99).get_peer_by_name
        "alice" = some ⟨"alice", "grabber-" ++ "10.0.0.1:4444", true, 0, [], 99⟩ ∧
    handle_grabber_message_dispatch "AUTH" = .unknownEvent :=
  ⟨(c9_grabber_unauthenticated "alice" "10.0.0.1:4444" ⟨[]⟩ 99).2.1,
   (c9_grabber_unauthenticated "alice" "10.0.0.1:4444" ⟨[]⟩ 99).2.2.1⟩

/-- C10: the health endpoint always reports status `"ok"`, `publishers`
equal to the number of peer-registry entries, and `subscribers` equal to
0; it is entirely independent of the SFU session maps. -/
theorem c10_health_endpoint (st : AppState) (sfu2 : SfuState) :
    health st = ⟨"ok", st.sfu_id, st.storage.peers.length, 0⟩ ∧
    health ⟨st.sfu_id, sfu2, st.storage⟩ = health st := by
  exact ⟨by simp [health, Storage.get_all_statuses], rfl⟩

/-- C10, witness: a state with one registered peer, one SFU publisher
session and one SFU subscriber session reports `publishers = 1`,
`subscribers = 0`. -/
theorem c10_health_witness :
    health ⟨"local-sfu-1",
            ⟨[("p", ⟨[]⟩)], [("s", ⟨"p", []⟩)], [("subscribers", 1)]⟩,
            ⟨[("alice", ⟨"alice", "grabber-1", true, 0, [], 0⟩)]⟩⟩ =
      ⟨"ok", "local-sfu-1", 1, 0⟩ := by
  have h := (c10_health_endpoint
    ⟨"local-sfu-1",
     ⟨[("p", ⟨[]⟩)], [("s", ⟨"p", []⟩)], [("subscribers", 1)]⟩,
     ⟨[("alice", ⟨"alice", "grabber-1", true, 0, [], 0⟩)]⟩⟩
    ⟨[], [], []⟩).1
  simpa using h

end WG
